import Mathlib

/-!
Verification development for the SVdP-Pasco-Marketing content pipeline.

Shallow embedding of the three tool clients
(`facebook_publishing_tool.py`, `squarespace_publishing_tool.py`,
`pinecone_storage_tool.py`) and of the pipeline orchestration declared in
`crew.py`.  Python text is modelled as `List Char` (a Python `str` is a
sequence of code points); Python floats are modelled exactly, with the
pre-normalization feature arithmetic in `ℚ` and the final L2 normalization in
`ℝ`.  ASCII semantics are used for `str.lower`, `str.strip`, `str.isupper`
and `str.split`.
-/

/-- Python `str.lower` on a single character (ASCII model): maps A-Z to a-z,
leaves every other character unchanged. -/
def pyToLower (c : Char) : Char :=
  if 65 ≤ c.toNat ∧ c.toNat ≤ 90 then Char.ofNat (c.toNat + 32) else c

/-- Python `str.isupper` on a single character (ASCII model). -/
def isPyUpper (c : Char) : Bool :=
  decide (65 ≤ c.toNat ∧ c.toNat ≤ 90)

/-- Whitespace characters recognised by Python `str.strip` / `str.split`
(ASCII model). -/
def isPySpace (c : Char) : Bool :=
  c == ' ' || c == '\t' || c == '\n' || c == '\r' || c == '\x0b' || c == '\x0c'

/-- Python `str.strip()`: drop leading and trailing whitespace. -/
def pyStrip (l : List Char) : List Char :=
  ((l.dropWhile isPySpace).reverse.dropWhile isPySpace).reverse

/-- The normalization step `text = text.lower().strip()` at the top of
`PineconeStorageTool._create_simple_embedding`. -/
def pyNormalize (l : List Char) : List Char :=
  pyStrip (l.map pyToLower)

/-- Helper for `wordCount`: counts maximal runs of non-whitespace characters;
the flag records whether the previous character belonged to a word. -/
def wordCountAux : List Char → Bool → Nat
  | [], _ => 0
  | c :: rest, inWord =>
    if isPySpace c then wordCountAux rest false
    else (if inWord then 0 else 1) + wordCountAux rest true

/-- Python `len(text.split())`: the number of whitespace-separated words. -/
def wordCount (l : List Char) : Nat := wordCountAux l false

/-- Count of uppercase characters, `sum(1 for c in text if c.isupper())`. -/
def countUpper (l : List Char) : Nat := l.countP isPyUpper

/-- The seven scalar text-shape features of
`PineconeStorageTool._create_simple_embedding`, computed on the already
normalized (lowercased, stripped) text: length, word count, counts of
`.`, `!`, `?`, uppercase letters, and spaces. -/
def scalarFeatures (n : List Char) : List ℚ :=
  [ (n.length : ℚ), (wordCount n : ℚ), (n.count '.' : ℚ), (n.count '!' : ℚ),
    (n.count '?' : ℚ), (countUpper n : ℚ), (n.count ' ' : ℚ) ]

/-- `total_chars = len(text) if len(text) > 0 else 1`. -/
def totalChars (n : List Char) : ℚ :=
  if 0 < n.length then (n.length : ℚ) else 1

/-- The 26 normalized lowercase-letter frequencies.  The Python code reads
them from a dictionary built over alphanumeric-or-space characters; for the
letters a-z the dictionary entry is exactly the occurrence count. -/
def letterFreqs (n : List Char) : List ℚ :=
  (List.range 26).map (fun i => (n.count (Char.ofNat (97 + i)) : ℚ) / totalChars n)

/-- The 10 normalized digit frequencies. -/
def digitFreqs (n : List Char) : List ℚ :=
  (List.range 10).map (fun i => (n.count (Char.ofNat (48 + i)) : ℚ) / totalChars n)

/-- The full pre-padding feature list (7 scalars, 26 letter frequencies,
10 digit frequencies). -/
def rawFeatures (n : List Char) : List ℚ :=
  scalarFeatures n ++ letterFreqs n ++ digitFreqs n

/-- The pad-with-zeros / truncate step:
`while len(features) < dimension: features.append(0.0); features = features[:dimension]`. -/
def padTruncate (features : List ℚ) (dimension : Nat) : List ℚ :=
  (features ++ List.replicate (dimension - features.length) 0).take dimension

/-- The pre-normalization feature vector of
`PineconeStorageTool._create_simple_embedding` for a given text and
dimension (the Python default dimension is 384). -/
def featuresQ (text : List Char) (dimension : Nat) : List ℚ :=
  padTruncate (rawFeatures (pyNormalize text)) dimension

/-- Sum of squares of a real vector; its square root is the Euclidean norm. -/
def sumSq (v : List ℝ) : ℝ := (v.map (fun x => x * x)).sum

/-- Rational sum of squares of the pre-normalization feature vector
(`magnitude` in the Python code is its square root). -/
def magSq (text : List Char) (dimension : Nat) : ℚ :=
  ((featuresQ text dimension).map (fun x => x * x)).sum

/-- The pre-normalization feature vector viewed in `ℝ`. -/
def featuresR (text : List Char) (dimension : Nat) : List ℝ :=
  (featuresQ text dimension).map (fun q : ℚ => (q : ℝ))

/-- `magnitude = math.sqrt(sum(x * x for x in features))`. -/
noncomputable def embedMagnitude (text : List Char) (dimension : Nat) : ℝ :=
  Real.sqrt (sumSq (featuresR text dimension))

/-- `PineconeStorageTool._create_simple_embedding`: feature extraction
followed by L2 normalization (`if magnitude > 0: divide by magnitude`).
The final division lives in `ℝ` because the Python code divides floats by a
square root. -/
noncomputable def createSimpleEmbedding (text : List Char) (dimension : Nat) : List ℝ :=
  if 0 < embedMagnitude text dimension then
    (featuresR text dimension).map (fun x => x / embedMagnitude text dimension)
  else featuresR text dimension

/-- The constant fallback vector `[0.1] * dimension` returned by the
`except` branch of `_create_simple_embedding`. -/
def fallbackEmbedding (dimension : Nat) : List ℚ :=
  List.replicate dimension (1 / 10 : ℚ)

theorem padTruncate_length (features : List ℚ) (dimension : Nat) :
    (padTruncate features dimension).length = dimension := by
  simp [padTruncate]
  omega

theorem featuresQ_length (text : List Char) (dimension : Nat) :
    (featuresQ text dimension).length = dimension :=
  padTruncate_length _ _

/-- C2: `embed(t, d)` always returns a vector of exactly `d` entries — the
feature list is padded with zeros or truncated to length `d` and the
normalization step preserves length — and the internal-failure fallback
vector `[0.1] * d` also has length `d`. -/
theorem embedding_length (text : List Char) (dimension : Nat) :
    (createSimpleEmbedding text dimension).length = dimension ∧
    (fallbackEmbedding dimension).length = dimension := by
  constructor
  · unfold createSimpleEmbedding
    split
    · rw [List.length_map, featuresR, List.length_map, featuresQ_length]
    · rw [featuresR, List.length_map, featuresQ_length]
  · simp [fallbackEmbedding]

theorem sumSq_map_ratCast (v : List ℚ) :
    sumSq (v.map (fun q : ℚ => (q : ℝ))) = (((v.map (fun x => x * x)).sum : ℚ) : ℝ) := by
  induction v with
  | nil => simp [sumSq]
  | cons a t ih =>
    unfold sumSq at ih ⊢
    simp only [List.map_cons, List.sum_cons]
    push_cast
    rw [ih]
    push_cast
    ring

theorem sumSq_map_div (v : List ℝ) (m : ℝ) :
    sumSq (v.map (fun x => x / m)) = sumSq v / (m * m) := by
  induction v with
  | nil => simp [sumSq]
  | cons a t ih =>
    unfold sumSq at ih ⊢
    simp only [List.map_cons, List.sum_cons]
    rw [ih, add_div, div_mul_div_comm]

theorem all_zero_of_sum_sq_zero (v : List ℚ) (h : (v.map (fun x => x * x)).sum = 0) :
    ∀ x ∈ v, x = 0 := by
  induction v with
  | nil => simp
  | cons a t ih =>
    simp only [List.map_cons, List.sum_cons] at h
    have ht : (0 : ℚ) ≤ (t.map (fun x => x * x)).sum := by
      apply List.sum_nonneg
      intro x hx
      obtain ⟨y, _, rfl⟩ := List.mem_map.mp hx
      exact mul_self_nonneg y
    have ha : (0 : ℚ) ≤ a * a := mul_self_nonneg a
    have ha0 : a * a = 0 := le_antisymm (by linarith) ha
    intro x hx
    rcases List.mem_cons.mp hx with rfl | hxt
    · exact mul_self_eq_zero.mp ha0
    · exact ih (by linarith) x hxt

theorem sumSq_featuresR (text : List Char) (dimension : Nat) :
    sumSq (featuresR text dimension) = ((magSq text dimension : ℚ) : ℝ) := by
  rw [featuresR, sumSq_map_ratCast, magSq]

/-- C7: when the pre-normalization feature vector has positive sum of
squares, the returned embedding has Euclidean norm exactly 1; when the sum
of squares is 0 the vector is returned unchanged, i.e. it is the all-zero
vector of the requested dimension. -/
theorem embedding_norm (text : List Char) (dimension : Nat) :
    (0 < magSq text dimension →
      Real.sqrt (sumSq (createSimpleEmbedding text dimension)) = 1) ∧
    (magSq text dimension = 0 →
      createSimpleEmbedding text dimension = List.replicate dimension (0 : ℝ)) := by
  constructor
  · intro h
    have hS : (0 : ℝ) < sumSq (featuresR text dimension) := by
      rw [sumSq_featuresR]
      exact_mod_cast h
    have hm : 0 < embedMagnitude text dimension := by
      rw [embedMagnitude]
      exact Real.sqrt_pos.mpr hS
    rw [createSimpleEmbedding, if_pos hm, sumSq_map_div]
    have hmm : embedMagnitude text dimension * embedMagnitude text dimension =
        sumSq (featuresR text dimension) := by
      rw [embedMagnitude]
      exact Real.mul_self_sqrt (le_of_lt hS)
    rw [hmm, div_self (ne_of_gt hS), Real.sqrt_one]
  · intro h
    have hz : ∀ x ∈ featuresQ text dimension, x = 0 :=
      all_zero_of_sum_sq_zero _ (by rw [← magSq, h])
    have hS : sumSq (featuresR text dimension) = 0 := by
      rw [sumSq_featuresR, h]
      norm_num
    have hm : ¬ 0 < embedMagnitude text dimension := by
      rw [embedMagnitude, hS, Real.sqrt_zero]
      exact lt_irrefl 0
    rw [createSimpleEmbedding, if_neg hm]
    apply List.eq_replicate_iff.mpr
    constructor
    · rw [featuresR, List.length_map, featuresQ_length]
    · intro b hb
      rw [featuresR] at hb
      obtain ⟨q, hq, rfl⟩ := List.mem_map.mp hb
      rw [hz q hq]
      norm_num

/-- Witness for C7 at the concrete texts "hi" (positive magnitude) and ""
(zero magnitude), with dimensions 3 and 2. -/
theorem embedding_norm_witness :
    0 < magSq ['h', 'i'] 3 ∧
    Real.sqrt (sumSq (createSimpleEmbedding ['h', 'i'] 3)) = 1 ∧
    magSq [] 2 = 0 ∧
    createSimpleEmbedding [] 2 = List.replicate 2 (0 : ℝ) := by
  have h1 : magSq ['h', 'i'] 3 = 5 := by
    simp +decide [magSq, featuresQ, padTruncate, rawFeatures, scalarFeatures, letterFreqs,
      digitFreqs, pyNormalize, pyStrip, pyToLower, isPySpace, wordCount, wordCountAux,
      countUpper, isPyUpper, totalChars]
    norm_num
  have h2 : magSq [] 2 = 0 := by
    simp +decide [magSq, featuresQ, padTruncate, rawFeatures, scalarFeatures, letterFreqs,
      digitFreqs, pyNormalize, pyStrip, pyToLower, isPySpace, wordCount, wordCountAux,
      countUpper, isPyUpper, totalChars]
  exact ⟨by rw [h1]; norm_num, (embedding_norm ['h', 'i'] 3).1 (by rw [h1]; norm_num),
    h2, (embedding_norm [] 2).2 h2⟩

/-- C9, amended: the sixth scalar feature computed by
`_create_simple_embedding` is the uppercase-letter count of the text after
the `text.lower().strip()` normalization, not of the original input: for
every dimension of at least 6, entry 5 of the pre-normalization feature
vector is that count.  Both sides apply the same uppercase predicate to the
same normalized text, so the statement does not depend on the ASCII
approximation of the character predicates. -/
theorem sixth_feature_uppercase (text : List Char) (d : Nat) (h : 6 ≤ d) :
    (featuresQ text d).getD 5 0 = (countUpper (pyNormalize text) : ℚ) := by
  have h5 : 5 < d := by omega
  have hrl : 5 < (rawFeatures (pyNormalize text)).length := by
    simp [rawFeatures, scalarFeatures, letterFreqs, digitFreqs]
  have hr : (rawFeatures (pyNormalize text))[5]? =
      some ((countUpper (pyNormalize text) : ℚ)) := rfl
  rw [featuresQ, padTruncate, List.getD_eq_getElem?_getD, List.getElem?_take, if_pos h5,
    List.getElem?_append, if_pos hrl, hr]
  rfl

/-- Witness for the amended C9 at the text "A" and the default dimension
384. -/
theorem sixth_feature_uppercase_witness :
    6 ≤ 384 ∧
    (featuresQ ['A'] 384).getD 5 0 = (countUpper (pyNormalize ['A']) : ℚ) :=
  ⟨by decide, sixth_feature_uppercase ['A'] 384 (by decide)⟩

/-- C9 counterexample: for the input "AB" the sixth scalar feature is 0
(uppercase letters are counted only after the text has been lowercased),
while the number of uppercase characters in "AB" is 2, so the claim as
stated fails. -/
theorem sixth_feature_counterexample :
    ¬ ((scalarFeatures (pyNormalize ['A', 'B'])).getD 5 0 = (countUpper ['A', 'B'] : ℚ)) := by
  have e : (scalarFeatures (pyNormalize ['A', 'B'])).getD 5 0 =
      (countUpper (pyNormalize ['A', 'B']) : ℚ) := rfl
  rw [e]
  have h1 : countUpper ['A', 'B'] = 2 := by decide
  have h2 : countUpper (pyNormalize ['A', 'B']) = 0 := by decide
  rw [h1, h2]
  norm_num

/-- C10: the embedding depends only on the lowercased, whitespace-stripped
text; two texts with the same normalization produce identical embeddings at
every dimension.  Texts differing only in letter case or in
leading/trailing whitespace have the same normalization. -/
theorem embedding_normalization_invariant (t t' : List Char) (d : Nat)
    (h : pyNormalize t = pyNormalize t') :
    createSimpleEmbedding t d = createSimpleEmbedding t' d := by
  unfold createSimpleEmbedding embedMagnitude featuresR featuresQ
  rw [h]

/-- Witness for C10 at the concrete texts "Hi " and " hI". -/
theorem embedding_normalization_invariant_witness :
    pyNormalize ['H', 'i', ' '] = pyNormalize [' ', 'h', 'I'] ∧
    createSimpleEmbedding ['H', 'i', ' '] 4 = createSimpleEmbedding [' ', 'h', 'I'] 4 :=
  ⟨by decide, embedding_normalization_invariant ['H', 'i', ' '] [' ', 'h', 'I'] 4 (by decide)⟩

/-- Python `message.strip()` on the `String` type used by the tool models. -/
def pyStripS (s : String) : String := ⟨pyStrip s.data⟩

/-- The fields of a decoded Facebook Graph API JSON body that
`FacebookPublishingTool._run` reads: the top-level id field and the
message field nested under the error key. -/
structure FbJson where
  idField : Option String
  errorMessage : Option String

/-- An HTTP response as seen by `FacebookPublishingTool._run`: status code,
decoded JSON body (`none` models a `json.JSONDecodeError` from
`response.json()`), and `response.reason`. -/
structure FbResponse where
  status : Nat
  body : Option FbJson
  reason : String

/-- Outcome of the single `requests.post` call in
`FacebookPublishingTool._run`: a response, or one of the exceptions handled
by the `except` clauses (`Timeout`, `ConnectionError`, other
`RequestException`, any other `Exception`). -/
inductive FbOutcome where
  | resp (r : FbResponse)
  | timeout
  | connectionError
  | requestFailure (msg : String)
  | unexpectedFailure (msg : String)

/-- Result of one tool invocation: the returned string, and how many HTTP
POST requests were issued (attempted) during the call. -/
structure ToolCall where
  result : String
  posts : Nat

/-- The access-token fallback `page_access_token or env`: an empty
parameter falls back to the FACEBOOK_PAGE_ACCESS_TKN environment value. -/
def fbAccessToken (page_access_token envAccessTkn : String) : String :=
  if page_access_token = "" then envAccessTkn else page_access_token

/-- The page-id fallback `page_id or env`, with FACEBOOK_PAGE_ID as the
environment value. -/
def fbPageId (page_id envPageId : String) : String :=
  if page_id = "" then envPageId else page_id

def fbErrNoToken : String :=
  "Error: Facebook page access token is required. Please provide it as parameter or set FACEBOOK_PAGE_ACCESS_TKN environment variable."

def fbErrNoPageId : String :=
  "Error: Facebook page ID is required. Please provide it as parameter or set FACEBOOK_PAGE_ID environment variable."

def fbErrEmptyMessage : String := "Error: Message content cannot be empty."

def fbSuccessHead : String := "✅ Successfully published to Facebook! Post ID: "

def fbSuccessNoId : String := "✅ Successfully published to Facebook! (Post ID unavailable)"

def fb400Head : String := "❌ Facebook API Error (400): "

def fb400NoJson : String := "❌ Facebook API Error (400): Invalid request parameters"

def fb401Message : String :=
  "❌ Facebook API Error (401): Invalid or expired access token. Please check your Facebook page access token."

def fb403Message : String :=
  "❌ Facebook API Error (403): Insufficient permissions. Make sure your access token has \x27pages_manage_posts\x27 permission."

def fb404Head : String := "❌ Facebook API Error (404): Page not found. Please verify the page ID: "

def fb429Message : String :=
  "❌ Facebook API Error (429): Rate limit exceeded. Please wait before making another request."

def fbTimeoutMessage : String :=
  "❌ Error: Request timed out. Facebook API may be temporarily unavailable."

def fbConnectionMessage : String :=
  "❌ Error: Failed to connect to Facebook API. Please check your internet connection."

/-- The response-handling block of `FacebookPublishingTool._run` (the
`if response.status_code == ...` chain). -/
def fbHandleResponse (fb_page_id : String) (r : FbResponse) : String :=
  if r.status = 200 then
    match r.body with
    | some j => fbSuccessHead ++ j.idField.getD "Unknown"
    | none => fbSuccessNoId
  else if r.status = 400 then
    match r.body with
    | some j => fb400Head ++ j.errorMessage.getD "Bad request"
    | none => fb400NoJson
  else if r.status = 401 then fb401Message
  else if r.status = 403 then fb403Message
  else if r.status = 404 then fb404Head ++ fb_page_id
  else if r.status = 429 then fb429Message
  else
    match r.body with
    | some j => "❌ Facebook API Error (" ++ toString r.status ++ "): " ++
        j.errorMessage.getD ("HTTP " ++ toString r.status)
    | none => "❌ Facebook API Error: HTTP " ++ toString r.status ++ " - " ++ r.reason

/-- `FacebookPublishingTool._run`: credential fallback, validation, a single
POST to the Graph API feed endpoint, and status-code dependent result
strings.  `posts` counts the `requests.post` calls that were attempted. -/
def fbRun (message page_access_token page_id envAccessTkn envPageId : String)
    (http : FbOutcome) : ToolCall :=
  if fbAccessToken page_access_token envAccessTkn = "" then ⟨fbErrNoToken, 0⟩
  else if fbPageId page_id envPageId = "" then ⟨fbErrNoPageId, 0⟩
  else if message = "" ∨ pyStripS message = "" then ⟨fbErrEmptyMessage, 0⟩
  else
    match http with
    | FbOutcome.resp r => ⟨fbHandleResponse (fbPageId page_id envPageId) r, 1⟩
    | FbOutcome.timeout => ⟨fbTimeoutMessage, 1⟩
    | FbOutcome.connectionError => ⟨fbConnectionMessage, 1⟩
    | FbOutcome.requestFailure msg => ⟨"❌ Network Error: " ++ msg, 1⟩
    | FbOutcome.unexpectedFailure msg => ⟨"❌ Unexpected Error: " ++ msg, 1⟩

/-- The three validation-error results of `FacebookPublishingTool._run`. -/
def fbIsValidationError (s : String) : Prop :=
  s = fbErrNoToken ∨ s = fbErrNoPageId ∨ s = fbErrEmptyMessage

/-- C3: whenever the effective access token is empty (parameter empty and
environment fallback empty), the effective page id is empty, or the message
is empty after trimming, the social publisher returns one of its three
validation-error strings and attempts no HTTP request, for every possible
HTTP outcome.  The model is a total function, mirroring that the Python
code returns instead of raising. -/
theorem facebook_validation_no_request
    (message page_access_token page_id envAccessTkn envPageId : String) (http : FbOutcome)
    (h : (page_access_token = "" ∧ envAccessTkn = "") ∨
         (page_id = "" ∧ envPageId = "") ∨ pyStripS message = "") :
    fbIsValidationError
      (fbRun message page_access_token page_id envAccessTkn envPageId http).result ∧
    (fbRun message page_access_token page_id envAccessTkn envPageId http).posts = 0 := by
  unfold fbRun
  by_cases h1 : fbAccessToken page_access_token envAccessTkn = ""
  · rw [if_pos h1]
    exact ⟨Or.inl rfl, rfl⟩
  · rw [if_neg h1]
    by_cases h2 : fbPageId page_id envPageId = ""
    · rw [if_pos h2]
      exact ⟨Or.inr (Or.inl rfl), rfl⟩
    · rw [if_neg h2]
      by_cases h3 : message = "" ∨ pyStripS message = ""
      · rw [if_pos h3]
        exact ⟨Or.inr (Or.inr rfl), rfl⟩
      · exfalso
        rcases h with ⟨ht, he⟩ | ⟨hp, he⟩ | hm
        · exact h1 (by unfold fbAccessToken; rw [ht, if_pos rfl]; exact he)
        · exact h2 (by unfold fbPageId; rw [hp, if_pos rfl]; exact he)
        · exact h3 (Or.inr hm)

/-- Witness for C3: empty access token (parameter and environment), with a
timeout oracle that is never consulted. -/
theorem facebook_validation_no_request_witness :
    (("" : String) = "" ∧ ("" : String) = "") ∧
    fbIsValidationError (fbRun "hello" "" "pg" "" "envpg" FbOutcome.timeout).result ∧
    (fbRun "hello" "" "pg" "" "envpg" FbOutcome.timeout).posts = 0 :=
  ⟨⟨rfl, rfl⟩,
   facebook_validation_no_request "hello" "" "pg" "" "envpg" FbOutcome.timeout
     (Or.inl ⟨rfl, rfl⟩)⟩

/-- Python `text[:n]` on the model `String`. -/
def pyTakeS (n : Nat) (s : String) : String := ⟨s.data.take n⟩

/-- The fields of a decoded Squarespace JSON body that
`SquarespacePublishingTool._run` reads: `id`, `fullUrl` (success path) and
`message` (error path). -/
structure SqJson where
  idField : Option String
  fullUrl : Option String
  message : Option String

/-- An HTTP response as seen by `SquarespacePublishingTool._run`; `body =
none` models a `json.JSONDecodeError` from `response.json()`, `text` is
`response.text`. -/
structure SqResponse where
  status : Nat
  body : Option SqJson
  text : String

/-- Outcome of the single `requests.post` call in
`SquarespacePublishingTool._run`. -/
inductive SqOutcome where
  | resp (r : SqResponse)
  | timeout
  | connectionError
  | requestFailure (msg : String)
  | unexpectedFailure (msg : String)

def sqErrNoApiKey : String := "Error: SQUARESPACE_API_KEY environment variable is required"

def sqErrNoSiteId : String := "Error: SQUARESPACE_SITE_ID environment variable is required"

def sq400Head : String := "❌ Error creating blog post: "

def sq400NoJson : String := "❌ Error creating blog post: Bad request (HTTP 400)"

def sq401Message : String := "❌ Error: Unauthorized. Please check your SQUARESPACE_API_KEY."

def sq403Message : String :=
  "❌ Error: Forbidden. Your API key may not have permission to create blog posts."

def sq404Message : String := "❌ Error: Site not found. Please check your SQUARESPACE_SITE_ID."

def sq429Message : String := "❌ Error: Rate limit exceeded. Please try again later."

def sqTimeoutMessage : String := "❌ Error: Request timed out. Please try again."

def sqConnectionMessage : String :=
  "❌ Error: Could not connect to Squarespace API. Please check your internet connection."

/-- The response-handling block of `SquarespacePublishingTool._run` (the
`if response.status_code ...` chain). -/
def sqHandleResponse (title : String) (r : SqResponse) : String :=
  if r.status = 200 ∨ r.status = 201 then
    match r.body with
    | some j =>
      if j.fullUrl.getD "" ≠ "" then
        "✅ Blog post published successfully!\nTitle: " ++ title ++
          "\nPost ID: " ++ j.idField.getD "" ++ "\nPublic URL: " ++ j.fullUrl.getD ""
      else
        "✅ Blog post created successfully with ID: " ++ j.idField.getD "" ++
          ", but URL not available in response."
    | none =>
      "✅ Blog post appears to have been created (HTTP " ++ toString r.status ++
        "), but response format was unexpected."
  else if r.status = 400 then
    match r.body with
    | some j => sq400Head ++ j.message.getD "Bad request" ++ " (HTTP 400)"
    | none => sq400NoJson
  else if r.status = 401 then sq401Message
  else if r.status = 403 then sq403Message
  else if r.status = 404 then sq404Message
  else if r.status = 429 then sq429Message
  else
    match r.body with
    | some j => sq400Head ++ j.message.getD ("HTTP " ++ toString r.status)
    | none => sq400Head ++ "HTTP " ++ toString r.status ++ " - " ++ pyTakeS 200 r.text

/-- `SquarespacePublishingTool._run`: environment-only credentials, a single
POST to the Squarespace blog-posts endpoint, and status-code dependent
result strings.  `excerpt` and `tags` only enter the request payload and do
not influence the returned string; `posts` counts attempted POST calls. -/
def sqRun (title bodyHtml : String) (excerpt : Option String) (tags : Option (List String))
    (envApiKey envSiteId : String) (http : SqOutcome) : ToolCall :=
  if envApiKey = "" then ⟨sqErrNoApiKey, 0⟩
  else if envSiteId = "" then ⟨sqErrNoSiteId, 0⟩
  else
    match http with
    | SqOutcome.resp r => ⟨sqHandleResponse title r, 1⟩
    | SqOutcome.timeout => ⟨sqTimeoutMessage, 1⟩
    | SqOutcome.connectionError => ⟨sqConnectionMessage, 1⟩
    | SqOutcome.requestFailure msg => ⟨"❌ Error making API request: " ++ msg, 1⟩
    | SqOutcome.unexpectedFailure msg => ⟨"❌ Unexpected error: " ++ msg, 1⟩

/-- An HTTP response as seen by `PineconeStorageTool._run`.
`upsertedCount` is the `upsertedCount` field of a decoded 200 body (`none`
models a missing field, defaulted to 0); `errorDetail` is the stringified
decoded error body of a non-200 response (`none` models a decode failure,
falling back to `text`).  A 200 body that fails to decode raises inside the
`try` block and is covered by the exception outcomes below. -/
structure PcResponse where
  status : Nat
  upsertedCount : Option Nat
  errorDetail : Option String
  text : String

/-- Outcome of the single upsert `requests.post` call in
`PineconeStorageTool._run`. -/
inductive PcOutcome where
  | resp (r : PcResponse)
  | timeout
  | connectionError
  | requestFailure (msg : String)
  | unexpectedFailure (msg : String)

def pcErrMissingEnv : String :=
  "Error: Missing required environment variables (PINECONE_API_KEY, PINECONE_ENVIRONMENT, PINECONE_INDEX_NAME)"

def pcErrContentType : String :=
  "Error: content_type must be either \x27facebook_post\x27 or \x27blog_post\x27"

def pcTimeoutMessage : String := "Error: Request to Pinecone API timed out. Please try again."

def pcConnectionMessage : String :=
  "Error: Could not connect to Pinecone API. Please check your internet connection and Pinecone configuration."

/-- `PineconeStorageTool._run`: environment validation, content-type
validation, then a single upsert POST.  The embedding of `content_text` and
the metadata dictionary only enter the request payload, not the returned
string; `performance_metrics` and `story_characteristics` are carried
opaquely.  `posts` counts attempted POST calls. -/
def pineconeRun {α β : Type} (content_id : String) (content_text : String)
    (performance_metrics : α) (content_type : String) (story_characteristics : β)
    (envApiKey envEnvironment envIndexName : String) (http : PcOutcome) : ToolCall :=
  if envApiKey = "" ∨ envEnvironment = "" ∨ envIndexName = "" then ⟨pcErrMissingEnv, 0⟩
  else if ¬ (content_type = "facebook_post" ∨ content_type = "blog_post") then
    ⟨pcErrContentType, 0⟩
  else
    match http with
    | PcOutcome.resp r =>
      ⟨if r.status = 200 then
          "Success: Stored performance data for content_id \x27" ++ content_id ++
            "\x27. Upserted " ++ toString (r.upsertedCount.getD 0) ++
            " vector(s) in Pinecone index \x27" ++ envIndexName ++ "\x27."
        else
          "Error: Pinecone API error (status " ++ toString r.status ++ "): " ++
            r.errorDetail.getD r.text,
        1⟩
    | PcOutcome.timeout => ⟨pcTimeoutMessage, 1⟩
    | PcOutcome.connectionError => ⟨pcConnectionMessage, 1⟩
    | PcOutcome.requestFailure msg => ⟨"Error: Request failed - " ++ msg, 1⟩
    | PcOutcome.unexpectedFailure msg => ⟨"Error: An unexpected error occurred - " ++ msg, 1⟩

/-- The validation-error results of `PineconeStorageTool._run` (missing
configuration, or a content type outside the allowed enumeration). -/
def pcIsValidationError (s : String) : Prop :=
  s = pcErrMissingEnv ∨ s = pcErrContentType

/-- C5: a content_type outside the allowed enumeration always produces a
validation-error result and no upsert request, for every HTTP outcome
oracle (a missing-configuration validation error can fire first, but no
request is ever issued). -/
theorem pinecone_content_type_validation
    (content_id content_text content_type : String)
    (envApiKey envEnvironment envIndexName : String) (http : PcOutcome)
    (h : content_type ≠ "facebook_post" ∧ content_type ≠ "blog_post") :
    pcIsValidationError
      (pineconeRun content_id content_text () content_type ()
        envApiKey envEnvironment envIndexName http).result ∧
    (pineconeRun content_id content_text () content_type ()
        envApiKey envEnvironment envIndexName http).posts = 0 := by
  unfold pineconeRun
  by_cases h1 : envApiKey = "" ∨ envEnvironment = "" ∨ envIndexName = ""
  · rw [if_pos h1]
    exact ⟨Or.inl rfl, rfl⟩
  · rw [if_neg h1]
    have h2 : ¬ (content_type = "facebook_post" ∨ content_type = "blog_post") := by
      rintro (hc | hc)
      · exact h.1 hc
      · exact h.2 hc
    rw [if_pos h2]
    exact ⟨Or.inr rfl, rfl⟩

/-- Witness for C5: content_type "tweet" with full configuration present
and a timeout oracle that is never consulted. -/
theorem pinecone_content_type_validation_witness :
    (("tweet" : String) ≠ "facebook_post" ∧ ("tweet" : String) ≠ "blog_post") ∧
    pcIsValidationError
      (pineconeRun "c1" "text" () "tweet" () "key" "env" "idx" PcOutcome.timeout).result ∧
    (pineconeRun "c1" "text" () "tweet" () "key" "env" "idx" PcOutcome.timeout).posts = 0 :=
  ⟨⟨by decide, by decide⟩,
   pinecone_content_type_validation "c1" "text" "tweet" "key" "env" "idx" PcOutcome.timeout
     ⟨by decide, by decide⟩⟩

/-- Validation conditions of `FacebookPublishingTool._run`: effective token
and page id nonempty, message nonempty after trimming. -/
def fbValid (message page_access_token page_id envAccessTkn envPageId : String) : Prop :=
  fbAccessToken page_access_token envAccessTkn ≠ "" ∧
  fbPageId page_id envPageId ≠ "" ∧
  ¬ (message = "" ∨ pyStripS message = "")

/-- Validation conditions of `SquarespacePublishingTool._run`: both
environment credentials present. -/
def sqValid (envApiKey envSiteId : String) : Prop :=
  envApiKey ≠ "" ∧ envSiteId ≠ ""

/-- Validation conditions of `PineconeStorageTool._run`: configuration
present and content type in the allowed enumeration. -/
def pcValid (envApiKey envEnvironment envIndexName content_type : String) : Prop :=
  ¬ (envApiKey = "" ∨ envEnvironment = "" ∨ envIndexName = "") ∧
  (content_type = "facebook_post" ∨ content_type = "blog_post")

theorem fbRun_posts_valid (message page_access_token page_id envAccessTkn envPageId : String)
    (http : FbOutcome) (h : fbValid message page_access_token page_id envAccessTkn envPageId) :
    (fbRun message page_access_token page_id envAccessTkn envPageId http).posts = 1 := by
  obtain ⟨h1, h2, h3⟩ := h
  unfold fbRun
  rw [if_neg h1, if_neg h2, if_neg h3]
  cases http <;> rfl

theorem fbRun_posts_invalid (message page_access_token page_id envAccessTkn envPageId : String)
    (http : FbOutcome)
    (h : ¬ fbValid message page_access_token page_id envAccessTkn envPageId) :
    (fbRun message page_access_token page_id envAccessTkn envPageId http).posts = 0 := by
  unfold fbRun
  by_cases h1 : fbAccessToken page_access_token envAccessTkn = ""
  · rw [if_pos h1]
  · rw [if_neg h1]
    by_cases h2 : fbPageId page_id envPageId = ""
    · rw [if_pos h2]
    · rw [if_neg h2]
      by_cases h3 : message = "" ∨ pyStripS message = ""
      · rw [if_pos h3]
      · exact absurd ⟨h1, h2, h3⟩ h

theorem sqRun_posts_valid (title bodyHtml : String) (excerpt : Option String)
    (tags : Option (List String)) (envApiKey envSiteId : String) (http : SqOutcome)
    (h : sqValid envApiKey envSiteId) :
    (sqRun title bodyHtml excerpt tags envApiKey envSiteId http).posts = 1 := by
  obtain ⟨h1, h2⟩ := h
  unfold sqRun
  rw [if_neg h1, if_neg h2]
  cases http <;> rfl

theorem sqRun_posts_invalid (title bodyHtml : String) (excerpt : Option String)
    (tags : Option (List String)) (envApiKey envSiteId : String) (http : SqOutcome)
    (h : ¬ sqValid envApiKey envSiteId) :
    (sqRun title bodyHtml excerpt tags envApiKey envSiteId http).posts = 0 := by
  unfold sqRun
  by_cases h1 : envApiKey = ""
  · rw [if_pos h1]
  · rw [if_neg h1]
    by_cases h2 : envSiteId = ""
    · rw [if_pos h2]
    · exact absurd ⟨h1, h2⟩ h

/-- C8: each publisher performs at most one HTTP POST per invocation —
exactly one when validation passes, zero when it fails — and never a second
attempt, whatever the outcome of the first (the outcome oracle is consumed
at most once and no retry branch exists). -/
theorem publishers_single_attempt
    (message page_access_token page_id envAccessTkn envPageId : String)
    (title bodyHtml : String) (excerpt : Option String) (tags : Option (List String))
    (envApiKey envSiteId : String) (fh : FbOutcome) (sh : SqOutcome) :
    ((fbRun message page_access_token page_id envAccessTkn envPageId fh).posts ≤ 1 ∧
     (fbValid message page_access_token page_id envAccessTkn envPageId →
       (fbRun message page_access_token page_id envAccessTkn envPageId fh).posts = 1) ∧
     (¬ fbValid message page_access_token page_id envAccessTkn envPageId →
       (fbRun message page_access_token page_id envAccessTkn envPageId fh).posts = 0)) ∧
    ((sqRun title bodyHtml excerpt tags envApiKey envSiteId sh).posts ≤ 1 ∧
     (sqValid envApiKey envSiteId →
       (sqRun title bodyHtml excerpt tags envApiKey envSiteId sh).posts = 1) ∧
     (¬ sqValid envApiKey envSiteId →
       (sqRun title bodyHtml excerpt tags envApiKey envSiteId sh).posts = 0)) := by
  constructor
  · refine ⟨?_, fbRun_posts_valid _ _ _ _ _ _, fbRun_posts_invalid _ _ _ _ _ _⟩
    by_cases h : fbValid message page_access_token page_id envAccessTkn envPageId
    · rw [fbRun_posts_valid _ _ _ _ _ _ h]
    · rw [fbRun_posts_invalid _ _ _ _ _ _ h]
      omega
  · refine ⟨?_, sqRun_posts_valid _ _ _ _ _ _ _, sqRun_posts_invalid _ _ _ _ _ _ _⟩
    by_cases h : sqValid envApiKey envSiteId
    · rw [sqRun_posts_valid _ _ _ _ _ _ _ h]
    · rw [sqRun_posts_invalid _ _ _ _ _ _ _ h]
      omega

/-- Witness for C8: a valid Facebook call issues exactly one request, a
Squarespace call with a missing API key issues none. -/
theorem publishers_single_attempt_witness :
    fbValid "hi" "tok" "pid" "" "" ∧ ¬ sqValid "" "site" ∧
    (fbRun "hi" "tok" "pid" "" "" FbOutcome.timeout).posts = 1 ∧
    (sqRun "T" "B" none none "" "site" SqOutcome.timeout).posts = 0 := by
  have hv : fbValid "hi" "tok" "pid" "" "" := by
    unfold fbValid fbAccessToken fbPageId
    decide
  have hns : ¬ sqValid "" "site" := by
    unfold sqValid
    decide
  exact ⟨hv, hns,
    (publishers_single_attempt "hi" "tok" "pid" "" "" "T" "B" none none "" "site"
      FbOutcome.timeout SqOutcome.timeout).1.2.1 hv,
    (publishers_single_attempt "hi" "tok" "pid" "" "" "T" "B" none none "" "site"
      FbOutcome.timeout SqOutcome.timeout).2.2.2 hns⟩

theorem append_ne_empty_left (a b : String) (h : a ≠ "") : a ++ b ≠ "" := by
  obtain ⟨la⟩ := a
  obtain ⟨lb⟩ := b
  intro hc
  apply h
  have hd : la ++ lb = ([] : List Char) := congrArg String.data hc
  have hla : la = [] := (List.append_eq_nil.mp hd).1
  rw [hla]

/-- C6: under inputs that reach the HTTP call, every exception arising
inside a client — timeout, connection failure, other transport error, or
any unexpected internal error — is converted by each of the three clients
into its descriptive, nonempty handler string; the models are total
functions, mirroring that no exception crosses the `_run` boundary. -/
theorem clients_exception_containment
    (message page_access_token page_id envAccessTkn envPageId : String)
    (title bodyHtml : String) (excerpt : Option String) (tags : Option (List String))
    (envApiKey envSiteId : String)
    (content_id content_text content_type envPcKey envPcEnv envPcIndex : String)
    (hfb : fbValid message page_access_token page_id envAccessTkn envPageId)
    (hsq : sqValid envApiKey envSiteId)
    (hpc : pcValid envPcKey envPcEnv envPcIndex content_type) :
    (∀ m : String,
      (fbRun message page_access_token page_id envAccessTkn envPageId
        FbOutcome.timeout).result = fbTimeoutMessage ∧
      (fbRun message page_access_token page_id envAccessTkn envPageId
        FbOutcome.connectionError).result = fbConnectionMessage ∧
      (fbRun message page_access_token page_id envAccessTkn envPageId
        (FbOutcome.requestFailure m)).result = "❌ Network Error: " ++ m ∧
      (fbRun message page_access_token page_id envAccessTkn envPageId
        (FbOutcome.unexpectedFailure m)).result = "❌ Unexpected Error: " ++ m ∧
      (fbRun message page_access_token page_id envAccessTkn envPageId
        (FbOutcome.requestFailure m)).result ≠ "" ∧
      (fbRun message page_access_token page_id envAccessTkn envPageId
        (FbOutcome.unexpectedFailure m)).result ≠ "") ∧
    (∀ m : String,
      (sqRun title bodyHtml excerpt tags envApiKey envSiteId
        SqOutcome.timeout).result = sqTimeoutMessage ∧
      (sqRun title bodyHtml excerpt tags envApiKey envSiteId
        SqOutcome.connectionError).result = sqConnectionMessage ∧
      (sqRun title bodyHtml excerpt tags envApiKey envSiteId
        (SqOutcome.requestFailure m)).result = "❌ Error making API request: " ++ m ∧
      (sqRun title bodyHtml excerpt tags envApiKey envSiteId
        (SqOutcome.unexpectedFailure m)).result = "❌ Unexpected error: " ++ m ∧
      (sqRun title bodyHtml excerpt tags envApiKey envSiteId
        (SqOutcome.requestFailure m)).result ≠ "" ∧
      (sqRun title bodyHtml excerpt tags envApiKey envSiteId
        (SqOutcome.unexpectedFailure m)).result ≠ "") ∧
    (∀ m : String,
      (pineconeRun content_id content_text () content_type ()
        envPcKey envPcEnv envPcIndex PcOutcome.timeout).result = pcTimeoutMessage ∧
      (pineconeRun content_id content_text () content_type ()
        envPcKey envPcEnv envPcIndex PcOutcome.connectionError).result = pcConnectionMessage ∧
      (pineconeRun content_id content_text () content_type ()
        envPcKey envPcEnv envPcIndex (PcOutcome.requestFailure m)).result =
        "Error: Request failed - " ++ m ∧
      (pineconeRun content_id content_text () content_type ()
        envPcKey envPcEnv envPcIndex (PcOutcome.unexpectedFailure m)).result =
        "Error: An unexpected error occurred - " ++ m ∧
      (pineconeRun content_id content_text () content_type ()
        envPcKey envPcEnv envPcIndex (PcOutcome.requestFailure m)).result ≠ "" ∧
      (pineconeRun content_id content_text () content_type ()
        envPcKey envPcEnv envPcIndex (PcOutcome.unexpectedFailure m)).result ≠ "") := by
  obtain ⟨hf1, hf2, hf3⟩ := hfb
  obtain ⟨hs1, hs2⟩ := hsq
  obtain ⟨hp1, hp2⟩ := hpc
  have hp2n : ¬ ¬ (content_type = "facebook_post" ∨ content_type = "blog_post") :=
    not_not_intro hp2
  refine ⟨fun m => ⟨?_, ?_, ?_, ?_, ?_, ?_⟩, fun m => ⟨?_, ?_, ?_, ?_, ?_, ?_⟩,
    fun m => ⟨?_, ?_, ?_, ?_, ?_, ?_⟩⟩
  · unfold fbRun
    rw [if_neg hf1, if_neg hf2, if_neg hf3]
  · unfold fbRun
    rw [if_neg hf1, if_neg hf2, if_neg hf3]
  · unfold fbRun
    rw [if_neg hf1, if_neg hf2, if_neg hf3]
  · unfold fbRun
    rw [if_neg hf1, if_neg hf2, if_neg hf3]
  · unfold fbRun
    rw [if_neg hf1, if_neg hf2, if_neg hf3]
    exact append_ne_empty_left _ _ (by decide)
  · unfold fbRun
    rw [if_neg hf1, if_neg hf2, if_neg hf3]
    exact append_ne_empty_left _ _ (by decide)
  · unfold sqRun
    rw [if_neg hs1, if_neg hs2]
  · unfold sqRun
    rw [if_neg hs1, if_neg hs2]
  · unfold sqRun
    rw [if_neg hs1, if_neg hs2]
  · unfold sqRun
    rw [if_neg hs1, if_neg hs2]
  · unfold sqRun
    rw [if_neg hs1, if_neg hs2]
    exact append_ne_empty_left _ _ (by decide)
  · unfold sqRun
    rw [if_neg hs1, if_neg hs2]
    exact append_ne_empty_left _ _ (by decide)
  · unfold pineconeRun
    rw [if_neg hp1, if_neg hp2n]
  · unfold pineconeRun
    rw [if_neg hp1, if_neg hp2n]
  · unfold pineconeRun
    rw [if_neg hp1, if_neg hp2n]
  · unfold pineconeRun
    rw [if_neg hp1, if_neg hp2n]
  · unfold pineconeRun
    rw [if_neg hp1, if_neg hp2n]
    exact append_ne_empty_left _ _ (by decide)
  · unfold pineconeRun
    rw [if_neg hp1, if_neg hp2n]
    exact append_ne_empty_left _ _ (by decide)

/-- Witness for C6 at concrete valid inputs, with the exception message
"boom". -/
theorem clients_exception_containment_witness :
    fbValid "hi" "tok" "pid" "" "" ∧ sqValid "key" "site" ∧
    pcValid "pk" "pe" "pi" "blog_post" ∧
    (fbRun "hi" "tok" "pid" "" "" FbOutcome.timeout).result = fbTimeoutMessage ∧
    (sqRun "T" "B" none none "key" "site"
      (SqOutcome.unexpectedFailure "boom")).result = "❌ Unexpected error: " ++ "boom" ∧
    (pineconeRun "c1" "t" () "blog_post" () "pk" "pe" "pi"
      PcOutcome.connectionError).result = pcConnectionMessage := by
  have h1 : fbValid "hi" "tok" "pid" "" "" := by
    unfold fbValid fbAccessToken fbPageId
    decide
  have h2 : sqValid "key" "site" := by
    unfold sqValid
    decide
  have h3 : pcValid "pk" "pe" "pi" "blog_post" := by
    unfold pcValid
    decide
  have T := clients_exception_containment "hi" "tok" "pid" "" "" "T" "B" none none
    "key" "site" "c1" "t" "blog_post" "pk" "pe" "pi" h1 h2 h3
  exact ⟨h1, h2, h3, (T.1 "boom").1, (T.2.1 "boom").2.2.2.1, (T.2.2 "boom").2.1⟩

theorem append_ne_of_take_ne (a b c : String)
    (h : c.data.take a.data.length ≠ a.data) : a ++ b ≠ c := by
  intro hc
  apply h
  rw [← hc, String.data_append, List.take_left]

/-- C4: status-code mapping of the two publishers under inputs that pass
validation.  401 maps to the auth-error result, 429 to the rate-limit
result, a social 200 response with body id "123" to the success result
carrying "123", 400/403/404 to their own results, and any other non-success
status to the generic HTTP-error result; the distinct error results are
pairwise different strings. -/
theorem status_code_mapping
    (message page_access_token page_id envAccessTkn envPageId : String)
    (title bodyHtml : String) (excerpt : Option String) (tags : Option (List String))
    (envApiKey envSiteId : String)
    (hfb : fbValid message page_access_token page_id envAccessTkn envPageId)
    (hsq : sqValid envApiKey envSiteId) :
    (∀ b reason, (fbRun message page_access_token page_id envAccessTkn envPageId
      (FbOutcome.resp ⟨401, b, reason⟩)).result = fb401Message) ∧
    (∀ b reason, (fbRun message page_access_token page_id envAccessTkn envPageId
      (FbOutcome.resp ⟨429, b, reason⟩)).result = fb429Message) ∧
    (∀ e reason, (fbRun message page_access_token page_id envAccessTkn envPageId
      (FbOutcome.resp ⟨200, some ⟨some "123", e⟩, reason⟩)).result =
      "✅ Successfully published to Facebook! Post ID: 123") ∧
    (∀ j reason, (fbRun message page_access_token page_id envAccessTkn envPageId
      (FbOutcome.resp ⟨400, some j, reason⟩)).result =
      fb400Head ++ j.errorMessage.getD "Bad request") ∧
    (∀ reason, (fbRun message page_access_token page_id envAccessTkn envPageId
      (FbOutcome.resp ⟨400, none, reason⟩)).result = fb400NoJson) ∧
    (∀ b reason, (fbRun message page_access_token page_id envAccessTkn envPageId
      (FbOutcome.resp ⟨403, b, reason⟩)).result = fb403Message) ∧
    (∀ b reason, (fbRun message page_access_token page_id envAccessTkn envPageId
      (FbOutcome.resp ⟨404, b, reason⟩)).result =
      fb404Head ++ fbPageId page_id envPageId) ∧
    (∀ s : Nat, s ≠ 200 → s ≠ 400 → s ≠ 401 → s ≠ 403 → s ≠ 404 → s ≠ 429 →
      ∀ reason, (fbRun message page_access_token page_id envAccessTkn envPageId
        (FbOutcome.resp ⟨s, none, reason⟩)).result =
        "❌ Facebook API Error: HTTP " ++ toString s ++ " - " ++ reason) ∧
    (∀ b t, (sqRun title bodyHtml excerpt tags envApiKey envSiteId
      (SqOutcome.resp ⟨401, b, t⟩)).result = sq401Message) ∧
    (∀ b t, (sqRun title bodyHtml excerpt tags envApiKey envSiteId
      (SqOutcome.resp ⟨429, b, t⟩)).result = sq429Message) ∧
    (∀ j t, (sqRun title bodyHtml excerpt tags envApiKey envSiteId
      (SqOutcome.resp ⟨400, some j, t⟩)).result =
      sq400Head ++ j.message.getD "Bad request" ++ " (HTTP 400)") ∧
    (∀ t, (sqRun title bodyHtml excerpt tags envApiKey envSiteId
      (SqOutcome.resp ⟨400, none, t⟩)).result = sq400NoJson) ∧
    (∀ b t, (sqRun title bodyHtml excerpt tags envApiKey envSiteId
      (SqOutcome.resp ⟨403, b, t⟩)).result = sq403Message) ∧
    (∀ b t, (sqRun title bodyHtml excerpt tags envApiKey envSiteId
      (SqOutcome.resp ⟨404, b, t⟩)).result = sq404Message) ∧
    (∀ s : Nat, s ≠ 200 → s ≠ 201 → s ≠ 400 → s ≠ 401 → s ≠ 403 → s ≠ 404 → s ≠ 429 →
      ∀ t, (sqRun title bodyHtml excerpt tags envApiKey envSiteId
        (SqOutcome.resp ⟨s, none, t⟩)).result =
        sq400Head ++ "HTTP " ++ toString s ++ " - " ++ pyTakeS 200 t) ∧
    ([fb400NoJson, fb401Message, fb403Message, fb429Message] : List String).Pairwise
      (fun a b => a ≠ b) ∧
    (∀ p : String, fb404Head ++ p ≠ fb400NoJson ∧ fb404Head ++ p ≠ fb401Message ∧
      fb404Head ++ p ≠ fb403Message ∧ fb404Head ++ p ≠ fb429Message) ∧
    ([sq400NoJson, sq401Message, sq403Message, sq404Message, sq429Message] :
      List String).Pairwise (fun a b => a ≠ b) := by
  obtain ⟨hf1, hf2, hf3⟩ := hfb
  obtain ⟨hs1, hs2⟩ := hsq
  have hfr : ∀ r, fbRun message page_access_token page_id envAccessTkn envPageId
      (FbOutcome.resp r) = ⟨fbHandleResponse (fbPageId page_id envPageId) r, 1⟩ := by
    intro r
    unfold fbRun
    rw [if_neg hf1, if_neg hf2, if_neg hf3]
  have hsr : ∀ r, sqRun title bodyHtml excerpt tags envApiKey envSiteId
      (SqOutcome.resp r) = ⟨sqHandleResponse title r, 1⟩ := by
    intro r
    unfold sqRun
    rw [if_neg hs1, if_neg hs2]
  refine ⟨fun b reason => ?_, fun b reason => ?_, fun e reason => ?_, fun j reason => ?_,
    fun reason => ?_, fun b reason => ?_, fun b reason => ?_,
    fun s c200 c400 c401 c403 c404 c429 reason => ?_,
    fun b t => ?_, fun b t => ?_, fun j t => ?_, fun t => ?_, fun b t => ?_, fun b t => ?_,
    fun s c200 c201 c400 c401 c403 c404 c429 t => ?_,
    by decide, fun p => ?_, by decide⟩
  · rw [hfr]
    rfl
  · rw [hfr]
    rfl
  · rw [hfr]
    rfl
  · rw [hfr]
    rfl
  · rw [hfr]
    rfl
  · rw [hfr]
    rfl
  · rw [hfr]
    rfl
  · rw [hfr]
    show fbHandleResponse (fbPageId page_id envPageId) ⟨s, none, reason⟩ = _
    unfold fbHandleResponse
    dsimp only
    rw [if_neg c200, if_neg c400, if_neg c401, if_neg c403, if_neg c404, if_neg c429]
  · rw [hsr]
    rfl
  · rw [hsr]
    rfl
  · rw [hsr]
    rfl
  · rw [hsr]
    rfl
  · rw [hsr]
    rfl
  · rw [hsr]
    rfl
  · rw [hsr]
    show sqHandleResponse title ⟨s, none, t⟩ = _
    have hc : ¬ (s = 200 ∨ s = 201) := by
      rintro (h | h)
      · exact c200 h
      · exact c201 h
    unfold sqHandleResponse
    dsimp only
    rw [if_neg hc, if_neg c400, if_neg c401, if_neg c403, if_neg c404, if_neg c429]
  · exact ⟨append_ne_of_take_ne _ _ _ (by decide), append_ne_of_take_ne _ _ _ (by decide),
      append_ne_of_take_ne _ _ _ (by decide), append_ne_of_take_ne _ _ _ (by decide)⟩

/-- Witness for C4 at concrete valid inputs: 401 gives the auth-error
result, 200 with id "123" gives the success result carrying "123", and the
CMS publisher maps 429 to the rate-limit result. -/
theorem status_code_mapping_witness :
    fbValid "hi" "tok" "pid" "" "" ∧ sqValid "key" "site" ∧
    (fbRun "hi" "tok" "pid" "" "" (FbOutcome.resp ⟨401, none, ""⟩)).result = fb401Message ∧
    (fbRun "hi" "tok" "pid" "" ""
      (FbOutcome.resp ⟨200, some ⟨some "123", none⟩, ""⟩)).result =
      "✅ Successfully published to Facebook! Post ID: 123" ∧
    (sqRun "T" "B" none none "key" "site"
      (SqOutcome.resp ⟨429, none, ""⟩)).result = sq429Message := by
  have h1 : fbValid "hi" "tok" "pid" "" "" := by
    unfold fbValid fbAccessToken fbPageId
    decide
  have h2 : sqValid "key" "site" := by
    unfold sqValid
    decide
  have T := status_code_mapping "hi" "tok" "pid" "" "" "T" "B" none none "key" "site" h1 h2
  exact ⟨h1, h2, T.1 none "", T.2.2.1 none "", T.2.2.2.2.2.2.2.2.2.1 none ""⟩

/-- The eight pipeline stages, in the order the tasks are declared in
`crew.py` (`Process.sequential`). -/
inductive Stage where
  | retrieveStory
  | researchPatterns
  | generateFacebook
  | generateBlog
  | complianceReview
  | requestApproval
  | publish
  | recordPerformance
deriving DecidableEq

/-- Modelled from the spec: `ComplianceVerdict` (approved flag plus notes);
the gating behaviour itself lives in the task configuration, which is not
part of the sources here. -/
structure ComplianceVerdict where
  approved : Bool
  notes : String

/-- Modelled from the spec: `ApprovalDecision` (approved flag, approver,
timestamp). -/
structure ApprovalDecision where
  approved : Bool
  approver : String
  timestamp : String

/-- Terminal state of a pipeline run: completed, or halted in a rejected
state. -/
inductive RunOutcome where
  | completed
  | rejected
deriving DecidableEq

/-- Modelled from the spec: after `ComplianceReview` the run continues only
when the verdict approves, after `RequestApproval` only when the decision
approves; every other stage always passes control onward. -/
def stageGate (v : ComplianceVerdict) (d : ApprovalDecision) : Stage → Bool
  | Stage.complianceReview => v.approved
  | Stage.requestApproval => d.approved
  | _ => true

/-- Modelled from the spec: strictly sequential execution of the stage
list; a stage whose gate fails ends the run immediately in the rejected
terminal state and no later stage is invoked.  Returns the list of invoked
stages and the terminal state. -/
def runStages (v : ComplianceVerdict) (d : ApprovalDecision) :
    List Stage → List Stage × RunOutcome
  | [] => ([], RunOutcome.completed)
  | s :: rest =>
    if stageGate v d s then
      ((runStages v d rest).1.cons s, (runStages v d rest).2)
    else ([s], RunOutcome.rejected)

/-- The stage order declared by the `@task` methods of
`StVincentDePaulSmartContentMarketingAutomationCrew` and executed
sequentially by its `crew()`. -/
def pipelineStages : List Stage :=
  [Stage.retrieveStory, Stage.researchPatterns, Stage.generateFacebook, Stage.generateBlog,
   Stage.complianceReview, Stage.requestApproval, Stage.publish, Stage.recordPerformance]

/-- Modelled from the spec: one full pipeline run with the given compliance
verdict and approval decision. -/
def pipelineRun (v : ComplianceVerdict) (d : ApprovalDecision) : List Stage × RunOutcome :=
  runStages v d pipelineStages

/-- C1: the publish stage is invoked only when both the compliance verdict
and the approval decision approve; and a rejecting compliance verdict halts
the run in the rejected terminal state with `RequestApproval`, `Publish`
and `RecordPerformance` never invoked. -/
theorem pipeline_gating (v : ComplianceVerdict) (d : ApprovalDecision) :
    (Stage.publish ∈ (pipelineRun v d).1 → v.approved = true ∧ d.approved = true) ∧
    (v.approved = false →
      (pipelineRun v d).2 = RunOutcome.rejected ∧
      Stage.requestApproval ∉ (pipelineRun v d).1 ∧
      Stage.publish ∉ (pipelineRun v d).1 ∧
      Stage.recordPerformance ∉ (pipelineRun v d).1) := by
  obtain ⟨va, vn⟩ := v
  obtain ⟨da, dp, dt⟩ := d
  cases va <;> cases da <;>
    simp [pipelineRun, pipelineStages, runStages, stageGate]

/-- Witness for C1: an approved run invokes publish with both flags true; a
compliance rejection yields the rejected terminal state and skips the
approval, publish and performance stages. -/
theorem pipeline_gating_witness :
    Stage.publish ∈ (pipelineRun ⟨true, "ok"⟩ ⟨true, "mgr", "t0"⟩).1 ∧
    ((⟨true, "ok"⟩ : ComplianceVerdict).approved = true ∧
      (⟨true, "mgr", "t0"⟩ : ApprovalDecision).approved = true) ∧
    ((⟨false, "off-brand"⟩ : ComplianceVerdict).approved = false) ∧
    ((pipelineRun ⟨false, "off-brand"⟩ ⟨true, "mgr", "t0"⟩).2 = RunOutcome.rejected ∧
      Stage.requestApproval ∉ (pipelineRun ⟨false, "off-brand"⟩ ⟨true, "mgr", "t0"⟩).1 ∧
      Stage.publish ∉ (pipelineRun ⟨false, "off-brand"⟩ ⟨true, "mgr", "t0"⟩).1 ∧
      Stage.recordPerformance ∉ (pipelineRun ⟨false, "off-brand"⟩ ⟨true, "mgr", "t0"⟩).1) :=
  ⟨by decide, (pipeline_gating ⟨true, "ok"⟩ ⟨true, "mgr", "t0"⟩).1 (by decide), rfl,
   (pipeline_gating ⟨false, "off-brand"⟩ ⟨true, "mgr", "t0"⟩).2 rfl⟩
